import Mathlib

/-!
Verification of the omniview-backend aggregation layer.

This file gives a shallow embedding of the parts of the repository that the
frozen claims talk about, and settles each claim against it:

  * the Redis cache wrapper (`app/utils/redis_cache.py`),
  * the unified follows aggregator (`app/api/routes/shared/following.py`),
  * the stream-normalization functions
    (`app/services/twitch/public.py`, `app/services/kick/public.py`,
     `app/services/google/user.py`, `app/services/twitch/user.py`),
  * the YouTube live-status checker (`app/services/google/user.py`),
  * the cross-platform search aggregator
    (`app/services/shared/search.py`, `app/services/shared/standardize_search.py`),
  * the Twitch token-refresh policy (`app/services/twitch/auth.py`).

Modelling conventions:

  * Async functions are modelled as pure functions over an explicit
    environment that records the outcome of every external call
    (HTTP fetches, the Redis backend, auth dependencies).
  * A Python exception is modelled with `Except`: `Except.error` at the point
    the source raises; a surrounding `try/except` block becomes a `match` on
    that `Except`.
  * Python dicts with a fixed field set are modelled as structures whose
    fields are `Option`-typed: `none` means the key is absent,
    `d.get(key, default)` becomes `field.getD default`, and `d[key]` becomes
    a match that errors (`KeyError`) on `none`.  A key that is present with
    value `None` is conflated with an absent key exactly where the two are
    observationally equivalent in the source (accesses go through
    `d.get(key, None)`).
  * Time stamps (`time.time()`) are modelled as integers;
    JSON-serializable cache values are modelled by the JSON document type
    `JVal`, and `json.dumps`/`json.loads` as the canonical inverse pair on
    that domain (serialization itself is not re-verified).
  * Pydantic type validation of well-typed data is not re-modelled: inputs
    are well-typed by the structure types, and `model_dump` of a schema
    object is a dict with every field present.
-/

/-! ### JSON documents (the domain of cache values) -/

/-- JSON document: the domain of values stored through the cache layer. -/
inductive JVal where
  | jnull : JVal
  | jbool (b : Bool) : JVal
  | jnum (n : Int) : JVal
  | jstr (s : String) : JVal
  | jarr (elems : List JVal) : JVal
  | jobj (fields : List (String × JVal)) : JVal
deriving Repr

/-- The model of `json.dumps` on the JSON document domain: serialization is
the canonical bijection, so the store simply keeps the document. -/
def json_dumps (v : JVal) : JVal := v

/-- The model of `json.loads`, inverse to `json_dumps`. -/
def json_loads (v : JVal) : JVal := v

/-- The model of `fastapi.encoders.jsonable_encoder` on data that is already
in the JSON document domain. -/
def jsonable_encoder (v : JVal) : JVal := v

/-! ### Cache layer: `app/utils/redis_cache.py`

`get_cache` and `set_cache` are parameterized by the outcome of the one Redis
backend call they make (`redis_client.get` / `redis_client.setex`).  `Unit`
stands for the backend exception. -/

/-- Embedding of `get_cache` (redis_cache.py lines 13-27).  `backendGet` is
the outcome of `redis_client.get(key)`: an exception, no value, or the stored
serialized value.  The source has no `try/except`, so a backend exception
propagates to the caller; a stored value (always a non-empty byte string,
hence truthy) is parsed and returned; otherwise `None` is returned. -/
def get_cache (backendGet : Except Unit (Option JVal)) : Except Unit (Option JVal) :=
  match backendGet with
  | .error e => .error e
  | .ok (some cached) => .ok (some (json_loads cached))
  | .ok none => .ok none

/-- Embedding of `set_cache` (redis_cache.py lines 30-50).  `backendSet` is
the outcome of `redis_client.setex(...)`.  The whole body is wrapped in
`try/except Exception`, which logs and returns `False`. -/
def set_cache (backendSet : Except Unit Unit) : Bool :=
  match backendSet with
  | .ok _ => true
  | .error _ => false

/-! ### A concrete Redis store with expiry, for the round-trip claim -/

/-- A concrete key-value store with per-key expiry times, the model of the
Redis instance behind `redis_client`. -/
structure RedisStore where
  entries : List (String × JVal × Nat)

/-- Model of `redis_client.setex(key, expiration, value)` executed at time
`now`: the key maps to `value` until time `now + ttl`. -/
def redis_setex (st : RedisStore) (key : String) (ttl : Nat) (v : JVal) (now : Nat) :
    RedisStore :=
  ⟨(key, v, now + ttl) :: st.entries.filter (fun e => e.1 != key)⟩

/-- Model of `redis_client.get(key)` executed at time `now`: an expired entry
behaves exactly like an absent one. -/
def redis_get (st : RedisStore) (key : String) (now : Nat) : Option JVal :=
  match st.entries.find? (fun e => e.1 == key) with
  | some (_, v, expiry) => if now < expiry then some v else none
  | none => none

/-- Running `set_cache(key, value, ttl)` at time `now` against the concrete
store (the backend call succeeds): the serialized encoded value is stored. -/
def set_cache_run (st : RedisStore) (key : String) (v : JVal) (ttl : Nat) (now : Nat) :
    Bool × RedisStore :=
  (set_cache (.ok ()), redis_setex st key ttl (json_dumps (jsonable_encoder v)) now)

/-- Running `get_cache(key)` at time `now` against the concrete store. -/
def get_cache_run (st : RedisStore) (key : String) (now : Nat) :
    Except Unit (Option JVal) :=
  get_cache (.ok (redis_get st key now))

/-! ### Claim C8 -/

/-- C8, counterexample.  The claim says a backend failure during `get_cache`
is treated as a cache miss (`None`, no raise).  In the source `get_cache` has
no exception handler: a backend error propagates to the caller instead of
yielding `None`. -/
theorem c8_get_cache_error_propagates :
    get_cache (Except.error ()) = Except.error () ∧
    get_cache (Except.error ()) ≠ Except.ok none := by
  constructor
  · rfl
  · simp [get_cache]

/-- C8, amended.  Cache-backend errors are never fatal in `set_cache`: a
backend failure makes it return `False` (and a success `True`) without
raising.  `get_cache`, however, does not catch backend errors: a backend
exception propagates to the caller unchanged; only an absent (or expired)
key is treated as a miss and returns `None`, and a stored value is parsed
and returned. -/
theorem c8_cache_error_semantics (bs : Except Unit Unit) (bg : Except Unit (Option JVal)) :
    (bs = .error () → set_cache bs = false) ∧
    (bs = .ok () → set_cache bs = true) ∧
    (bg = .error () → get_cache bg = .error ()) ∧
    (bg = .ok none → get_cache bg = .ok none) ∧
    (∀ v, bg = .ok (some v) → get_cache bg = .ok (some v)) := by
  refine ⟨?_, ?_, ?_, ?_, ?_⟩ <;> intros <;> subst_vars <;> rfl

/-- C8, witness for `c8_cache_error_semantics` at concrete backend outcomes. -/
theorem c8_cache_error_semantics_witness :
    set_cache (.error ()) = false ∧ get_cache (.ok none) = .ok none := by
  refine ⟨(c8_cache_error_semantics (.error ()) (.ok none)).1 rfl,
          (c8_cache_error_semantics (.error ()) (.ok none)).2.2.2.1 rfl⟩

/-! ### Claim C9 -/

/-- C9.  Cache round-trip: `set_cache(key, value, ttl)` at time `t` followed
by `get_cache(key)` at time `t'` returns exactly the stored JSON image of
`value` while the TTL has not elapsed (`t' < t + ttl`), and returns `None`
once the TTL has elapsed (`t + ttl ≤ t'`). -/
theorem c9_cache_roundtrip (st : RedisStore) (key : String) (v : JVal)
    (ttl t tq : Nat) :
    (tq < t + ttl →
      get_cache_run (set_cache_run st key v ttl t).2 key tq = .ok (some v)) ∧
    (t + ttl ≤ tq →
      get_cache_run (set_cache_run st key v ttl t).2 key tq = .ok none) := by
  constructor
  · intro h
    simp [get_cache_run, set_cache_run, redis_setex, redis_get, List.find?, get_cache,
      json_dumps, json_loads, jsonable_encoder, h]
  · intro h
    simp [get_cache_run, set_cache_run, redis_setex, redis_get, List.find?, get_cache,
      json_dumps, json_loads, jsonable_encoder, Nat.not_lt.mpr h]

/-- C9, witness: a concrete round-trip before and after expiry. -/
theorem c9_cache_roundtrip_witness :
    get_cache_run (set_cache_run ⟨[]⟩ "search:all:bob" (.jobj [("a", .jnum 1)]) 60 100).2
      "search:all:bob" 159 = .ok (some (.jobj [("a", .jnum 1)])) ∧
    get_cache_run (set_cache_run ⟨[]⟩ "search:all:bob" (.jobj [("a", .jnum 1)]) 60 100).2
      "search:all:bob" 160 = .ok none := by
  exact ⟨(c9_cache_roundtrip ⟨[]⟩ "search:all:bob" (.jobj [("a", .jnum 1)]) 60 100 159).1
          (by omega),
         (c9_cache_roundtrip ⟨[]⟩ "search:all:bob" (.jobj [("a", .jnum 1)]) 60 100 160).2
          (by omega)⟩

/-! ### Unified stream records: `app/schemas/followed_streamer.py` -/

/-- The `FollowedStreamer` pydantic schema (followed_streamer.py lines 6-62),
as a typed record.  `platform` is kept as a plain string. -/
structure FollowedStreamer where
  id : String
  login : String
  display_name : String
  type : String
  broadcaster_type : String
  description : String
  profile_image_url : String
  offline_image_url : String
  view_count : Int
  created_at : String
  user_id : String
  user_login : String
  user_name : String
  game_id : String
  game_name : String
  title : String
  viewer_count : Int
  started_at : String
  language : String
  thumbnail_url : String
  tag_ids : List String
  tags : List String
  is_mature : Bool
  livechat_id : Option String
  video_id : Option String
  platform : String
deriving Repr, DecidableEq

/-- A raw stream-data dict, the input of `stream_data_to_unified_format`
(following.py lines 26-57).  Each field is `Option`-typed: `none` models an
absent key. -/
structure StreamData where
  id : Option String
  login : Option String
  display_name : Option String
  type : Option String
  broadcaster_type : Option String
  description : Option String
  profile_image_url : Option String
  offline_image_url : Option String
  view_count : Option Int
  created_at : Option String
  user_id : Option String
  user_login : Option String
  game_id : Option String
  game_name : Option String
  title : Option String
  viewer_count : Option Int
  started_at : Option String
  language : Option String
  thumbnail_url : Option String
  tag_ids : Option (List String)
  tags : Option (List String)
  is_mature : Option Bool
  livechat_id : Option String
  video_id : Option String
deriving Repr, DecidableEq

/-- Python subscript access `d[key]`: raises `KeyError` when the key is
absent. -/
def pyKey (key : String) (v : Option α) : Except String α :=
  match v with
  | some a => .ok a
  | none => .error ("KeyError: " ++ key)

/-- Embedding of `stream_data_to_unified_format`
(app/api/routes/shared/following.py lines 26-57).  Subscript accesses
(`stream_data["id"]`, `["display_name"]`, `["user_id"]`, `["title"]`,
`["viewer_count"]`, `["started_at"]`, `["language"]`, `["thumbnail_url"]`,
`["is_mature"]`) raise `KeyError` when the key is absent, in the source's
keyword-argument evaluation order; every other field goes through
`.get(key, default)`. -/
def stream_data_to_unified_format (d : StreamData) (platform : String) :
    Except String FollowedStreamer :=
  match pyKey "id" d.id with
  | .error e => .error e
  | .ok i =>
  match pyKey "display_name" d.display_name with
  | .error e => .error e
  | .ok dn =>
  match pyKey "user_id" d.user_id with
  | .error e => .error e
  | .ok uid =>
  match pyKey "title" d.title with
  | .error e => .error e
  | .ok ti =>
  match pyKey "viewer_count" d.viewer_count with
  | .error e => .error e
  | .ok vc =>
  match pyKey "started_at" d.started_at with
  | .error e => .error e
  | .ok sa =>
  match pyKey "language" d.language with
  | .error e => .error e
  | .ok lang =>
  match pyKey "thumbnail_url" d.thumbnail_url with
  | .error e => .error e
  | .ok thumb =>
  match pyKey "is_mature" d.is_mature with
  | .error e => .error e
  | .ok mature =>
  .ok
    { id := i
      login := d.login.getD (d.user_login.getD "")
      display_name := dn
      type := d.type.getD ""
      broadcaster_type := d.broadcaster_type.getD ""
      description := d.description.getD ""
      profile_image_url := d.profile_image_url.getD ""
      offline_image_url := d.offline_image_url.getD ""
      view_count := d.view_count.getD 0
      created_at := d.created_at.getD ""
      user_id := uid
      user_login := d.user_login.getD (d.login.getD "")
      user_name := dn
      game_id := d.game_id.getD ""
      game_name := d.game_name.getD ""
      title := ti
      viewer_count := vc
      started_at := sa
      language := lang
      thumbnail_url := thumb
      tag_ids := d.tag_ids.getD []
      tags := d.tags.getD []
      is_mature := mature
      livechat_id := d.livechat_id
      video_id := d.video_id
      platform := platform }

/-- Model of `FollowedStreamer.model_dump()`: a dict with every field
present. -/
def FollowedStreamer.model_dump (s : FollowedStreamer) : StreamData :=
  { id := some s.id
    login := some s.login
    display_name := some s.display_name
    type := some s.type
    broadcaster_type := some s.broadcaster_type
    description := some s.description
    profile_image_url := some s.profile_image_url
    offline_image_url := some s.offline_image_url
    view_count := some s.view_count
    created_at := some s.created_at
    user_id := some s.user_id
    user_login := some s.user_login
    game_id := some s.game_id
    game_name := some s.game_name
    title := some s.title
    viewer_count := some s.viewer_count
    started_at := some s.started_at
    language := some s.language
    thumbnail_url := some s.thumbnail_url
    tag_ids := some s.tag_ids
    tags := some s.tags
    is_mature := some s.is_mature
    livechat_id := s.livechat_id
    video_id := s.video_id }

/-! ### Platform normalizers for public top-streams data -/

/-- A raw Twitch Helix stream item (the input of
`standardize_twitch_stream_data`), restricted to the keys the function
reads. -/
structure TwitchRawStream where
  id : Option String
  user_id : Option String
  user_name : Option String
  user_login : Option String
  title : Option String
  viewer_count : Option Int
  started_at : Option String
  language : Option String
  thumbnail_url : Option String
  is_mature : Option Bool
  game_name : Option String
  type : Option String
deriving Repr, DecidableEq

/-- The unified Stream dict produced by the top-streams normalizers (a plain
dict in the source, with a fixed key set). -/
structure UnifiedStream where
  id : String
  user_id : String
  user_name : String
  title : String
  viewer_count : Int
  started_at : String
  language : String
  thumbnail_url : String
  is_mature : Bool
  platform : String
  game_name : Option String
  stream_type : Option String
  profile_image_url : Option String
deriving Repr, DecidableEq

/-- Embedding of `standardize_twitch_stream_data`
(app/services/twitch/public.py lines 39-57).  Every access is
`item.get(key, default)`, so the function is total. -/
def standardize_twitch_stream_data (item : TwitchRawStream) : UnifiedStream :=
  { id := item.id.getD ""
    user_id := item.user_id.getD ""
    user_name := item.user_name.getD (item.user_login.getD "")
    title := item.title.getD ""
    viewer_count := item.viewer_count.getD 0
    started_at := item.started_at.getD ""
    language := item.language.getD ""
    thumbnail_url := item.thumbnail_url.getD ""
    is_mature := item.is_mature.getD false
    platform := "twitch"
    game_name := item.game_name
    stream_type := item.type
    profile_image_url := none }

/-- The `category` sub-dict of a raw Kick stream item. -/
structure KickCategory where
  name : Option String
deriving Repr, DecidableEq

/-- A raw Kick livestream item (the input of `standardize_kick_stream_data`),
restricted to the keys the function reads.  `category` is either absent or a
dict (a present-but-null category, which would raise in the source, is
outside the modelled domain). -/
structure KickRawStream where
  broadcaster_user_id : Option Int
  slug : Option String
  stream_title : Option String
  viewer_count : Option Int
  started_at : Option String
  language : Option String
  thumbnail : Option String
  has_mature_content : Option Bool
  category : Option KickCategory
  profile_image_url : Option String
deriving Repr, DecidableEq

/-- Embedding of `standardize_kick_stream_data`
(app/services/kick/public.py lines 75-93).  Every access is
`item.get(key, default)` (with `str(...)` around the id and slug), so the
function is total. -/
def standardize_kick_stream_data (item : KickRawStream) : UnifiedStream :=
  { id := match item.broadcaster_user_id with
          | some n => toString n
          | none => ""
    user_id := match item.broadcaster_user_id with
               | some n => toString n
               | none => ""
    user_name := item.slug.getD ""
    title := item.stream_title.getD ""
    viewer_count := item.viewer_count.getD 0
    started_at := item.started_at.getD ""
    language := item.language.getD ""
    thumbnail_url := item.thumbnail.getD ""
    is_mature := item.has_mature_content.getD false
    platform := "kick"
    game_name := some ((item.category.getD ⟨none⟩).name.getD "")
    stream_type := some "live"
    profile_image_url := some (item.profile_image_url.getD "") }

/-! ### YouTube subscription normalizer: `app/services/google/user.py` -/

/-- The `snippet.resourceId` sub-dict of a YouTube subscription. -/
structure YtResourceId where
  channelId : Option String
deriving Repr, DecidableEq, Inhabited

/-- A single thumbnail entry of a YouTube snippet. -/
structure YtThumb where
  url : Option String
deriving Repr, DecidableEq, Inhabited

/-- The `snippet.thumbnails` sub-dict of a YouTube subscription, restricted
to the keys `standardize_data` reads. -/
structure YtThumbs where
  defaultThumb : Option YtThumb
  high : Option YtThumb
deriving Repr, DecidableEq, Inhabited

/-- The `snippet` sub-dict of a YouTube subscription, restricted to the keys
`standardize_data` reads. -/
structure YtSubSnippet where
  resourceId : Option YtResourceId
  customUrl : Option String
  title : Option String
  description : Option String
  thumbnails : Option YtThumbs
deriving Repr, DecidableEq, Inhabited

/-- The `livestream_info` dict attached to a subscription by
`enrich_and_filter_live_subscriptions` and read by `standardize_data`. -/
structure LivestreamInfo where
  live : Option Bool
  title : Option String
  viewer_count : Option Int
  actualStartTime : Option String
  scheduledStartTime : Option String
  language : Option String
  thumbnail : Option String
  live_chat_id : Option String
  vid : Option String
deriving Repr, DecidableEq, Inhabited

/-- A YouTube subscription with its attached livestream info, the input of
`standardize_data` (google/user.py lines 248-283). -/
structure YtSubscription where
  snippet : Option YtSubSnippet
  livestream_info : Option LivestreamInfo
deriving Repr, DecidableEq, Inhabited

namespace Google

/-- Embedding of `standardize_data` (app/services/google/user.py lines
248-283).  Every access is a chain of `.get(key, default)` (with
`ls.get("language") or ""` collapsing a null/empty language to `""`), so
the function is total. -/
def standardize_data (sub : YtSubscription) : FollowedStreamer :=
  let ls := sub.livestream_info.getD default
  let snippet := sub.snippet.getD default
  let thumbnails := snippet.thumbnails.getD default
  let default_thumb := (thumbnails.defaultThumb.getD default).url.getD ""
  let high_thumb := (thumbnails.high.getD default).url.getD default_thumb
  { id := (snippet.resourceId.getD default).channelId.getD ""
    login := snippet.customUrl.getD ""
    display_name := snippet.title.getD ""
    type := ""
    broadcaster_type := ""
    description := snippet.description.getD ""
    profile_image_url := default_thumb
    offline_image_url := high_thumb
    view_count := ls.viewer_count.getD 0
    created_at := ""
    user_id := (snippet.resourceId.getD default).channelId.getD ""
    user_login := snippet.customUrl.getD ""
    user_name := snippet.title.getD ""
    game_id := ""
    game_name := "Youtube Content"
    title := ls.title.getD (snippet.title.getD "")
    viewer_count := ls.viewer_count.getD 0
    started_at := ls.actualStartTime.getD (ls.scheduledStartTime.getD "")
    language := ls.language.getD ""
    thumbnail_url := ls.thumbnail.getD default_thumb
    tag_ids := []
    tags := []
    is_mature := false
    livechat_id := ls.live_chat_id
    video_id := ls.vid
    platform := "youtube" }

end Google

/-! ### Claim C2 -/

/-- A raw stream record that carries every field `stream_data_to_unified_format`
requires except `language`. -/
def missingLanguageInput : StreamData :=
  { id := some "42"
    login := none
    display_name := some "streamer"
    type := none
    broadcaster_type := none
    description := none
    profile_image_url := none
    offline_image_url := none
    view_count := none
    created_at := none
    user_id := some "42"
    user_login := none
    game_id := none
    game_name := none
    title := some "hello"
    viewer_count := some 7
    started_at := some "2024-01-01T00:00:00Z"
    language := none
    thumbnail_url := some "https://thumb"
    tag_ids := none
    tags := none
    is_mature := some false
    livechat_id := none
    video_id := none }

/-- C2, counterexample.  The claim says every normalization function —
`stream_data_to_unified_format` included — applies the default `language=""`
when the upstream `language` field is absent, without raising.  In the
source, `stream_data_to_unified_format` reads `stream_data["language"]`
(and likewise `id`, `display_name`, `user_id`, `title`, `viewer_count`,
`started_at`, `thumbnail_url`, `is_mature`) by subscript, so a record
missing only `language` raises `KeyError` instead of defaulting. -/
theorem c2_unified_format_keyerror :
    stream_data_to_unified_format missingLanguageInput "twitch" =
      Except.error "KeyError: language" := rfl

/-- C2, amended.  The three platform normalizers
(`standardize_twitch_stream_data`, `standardize_kick_stream_data`, the
YouTube `standardize_data`) are total on records with absent optional
fields, applying the deterministic defaults (empty string for missing
strings such as `language`, `0` for missing counts, `False` for missing
mature flags, passthrough `None` for optional fields); but
`stream_data_to_unified_format` succeeds exactly when the nine
subscript-accessed fields (`id`, `display_name`, `user_id`, `title`,
`viewer_count`, `started_at`, `language`, `thumbnail_url`, `is_mature`) are
all present, raising `KeyError` otherwise, and applies defaults only for
the remaining fields. -/
theorem c2_normalization_defaults (d : StreamData) (p : String)
    (tw : TwitchRawStream) (k : KickRawStream) (sub : YtSubscription) :
    ((∃ fs, stream_data_to_unified_format d p = Except.ok fs) ↔
      (d.id.isSome ∧ d.display_name.isSome ∧ d.user_id.isSome ∧
       d.title.isSome ∧ d.viewer_count.isSome ∧ d.started_at.isSome ∧
       d.language.isSome ∧ d.thumbnail_url.isSome ∧ d.is_mature.isSome)) ∧
    ((standardize_twitch_stream_data tw).language = tw.language.getD "" ∧
     (standardize_twitch_stream_data tw).viewer_count = tw.viewer_count.getD 0 ∧
     (standardize_twitch_stream_data tw).is_mature = tw.is_mature.getD false ∧
     (standardize_twitch_stream_data tw).game_name = tw.game_name ∧
     (standardize_twitch_stream_data tw).profile_image_url = none) ∧
    ((standardize_kick_stream_data k).language = k.language.getD "" ∧
     (standardize_kick_stream_data k).viewer_count = k.viewer_count.getD 0 ∧
     (standardize_kick_stream_data k).is_mature = k.has_mature_content.getD false) ∧
    ((Google.standardize_data sub).language =
       (sub.livestream_info.getD default).language.getD "" ∧
     (Google.standardize_data sub).viewer_count =
       (sub.livestream_info.getD default).viewer_count.getD 0 ∧
     (Google.standardize_data sub).is_mature = false ∧
     (Google.standardize_data sub).livechat_id =
       (sub.livestream_info.getD default).live_chat_id) := by
  refine ⟨?_, ⟨rfl, rfl, rfl, rfl, rfl⟩, ⟨rfl, rfl, rfl⟩, ⟨rfl, rfl, rfl, rfl⟩⟩
  obtain ⟨di, dlo, ddn, dty, dbt, dde, dpi, doi, dvc, dca, dui, dul, dgi, dgn,
    dti, dvw, dsa, dla, dth, dtg, dts, dim, dlc, dvd⟩ := d
  cases di <;> cases ddn <;> cases dui <;> cases dti <;> cases dvw <;>
    cases dsa <;> cases dla <;> cases dth <;> cases dim <;>
    simp [stream_data_to_unified_format, pyKey]

/-- C2, witness for `c2_normalization_defaults`: evaluated at the all-absent
raw records (no hypotheses beyond the quantified inputs; the conclusion for
the fully-present unified input is exercised at `missingLanguageInput` with
`language` filled in). -/
theorem c2_normalization_defaults_witness :
    (∃ fs, stream_data_to_unified_format
      { missingLanguageInput with language := some "en" } "twitch" = Except.ok fs) ∧
    (standardize_twitch_stream_data
      ⟨none, none, none, none, none, none, none, none, none, none, none, none⟩).language
      = "" := by
  constructor
  · exact (c2_normalization_defaults
      { missingLanguageInput with language := some "en" } "twitch"
      ⟨none, none, none, none, none, none, none, none, none, none, none, none⟩
      ⟨none, none, none, none, none, none, none, none, none, none⟩
      ⟨none, none⟩).1.mpr (by decide)
  · exact (c2_normalization_defaults
      { missingLanguageInput with language := some "en" } "twitch"
      ⟨none, none, none, none, none, none, none, none, none, none, none, none⟩
      ⟨none, none, none, none, none, none, none, none, none, none⟩
      ⟨none, none⟩).2.1.1

/-! ### Twitch token lifecycle: `app/services/twitch/auth.py` -/

/-- A Twitch credentials dict held in the session (`twitch_credentials` or
`twitch_public_credentials`). -/
structure TwitchSessionCreds where
  access_token : Option String
  refresh_token : Option String
  last_validated : Option Int
deriving Repr, DecidableEq

/-- The two session slots `ensure_valid_token` looks at, in its priority
order. -/
inductive CredsKey where
  | userCreds
  | publicCreds
deriving Repr, DecidableEq

/-- The session state relevant to `ensure_valid_token`. -/
structure TwitchSession where
  twitch_credentials : Option TwitchSessionCreds
  twitch_public_credentials : Option TwitchSessionCreds
deriving Repr, DecidableEq

/-- Writes the given slot of the session. -/
def setSlot (s : TwitchSession) (k : CredsKey) (v : Option TwitchSessionCreds) :
    TwitchSession :=
  match k with
  | .userCreds => { s with twitch_credentials := v }
  | .publicCreds => { s with twitch_public_credentials := v }

/-- Environment of one `ensure_valid_token` call: the session, the current
time, and the outcomes of the upstream calls (`validate_access_token`, and
`refresh_oauth_token` whose non-200 answer raises `HTTPException`,
modelled as the error case). -/
structure AuthEnv where
  hasSession : Bool
  session : TwitchSession
  currentTime : Int
  validateResult : Bool
  refreshResult : Except Unit TwitchSessionCreds
deriving Repr

/-- Observable outcome of one `ensure_valid_token` call: the returned
boolean, how many validation and refresh calls were made, and the resulting
session. -/
structure AuthOutcome where
  result : Bool
  validateCalls : Nat
  refreshCalls : Nat
  session : TwitchSession
deriving Repr, DecidableEq

/-- Core of `ensure_valid_token` once a credentials slot has been selected
(twitch/auth.py lines 119-153). -/
def ensure_valid_token_core (env : AuthEnv) (k : CredsKey)
    (creds : TwitchSessionCreds) : AuthOutcome :=
  if creds.access_token.isNone then
    ⟨false, 0, 0, env.session⟩
  else
    let last_validated := creds.last_validated.getD 0
    if env.currentTime - last_validated ≥ 3600 then
      let is_valid := env.validateResult
      let creds1 := { creds with last_validated := some env.currentTime }
      if !is_valid && creds.refresh_token.isSome then
        match env.refreshResult with
        | .ok nd =>
          ⟨true, 1, 1,
            setSlot env.session k (some { nd with last_validated := some env.currentTime })⟩
        | .error _ =>
          ⟨false, 1, 1, setSlot env.session k none⟩
      else
        ⟨is_valid, 1, 0, setSlot env.session k (some creds1)⟩
    else
      ⟨true, 0, 0, env.session⟩

/-- Embedding of `ensure_valid_token` (app/services/twitch/auth.py lines
101-153): pick `twitch_credentials`, else `twitch_public_credentials`, else
return `False`; bail out without any upstream call if there is no access
token; force a validation once the last validation is an hour old, refresh
exactly when that validation fails and a refresh token exists; otherwise
assume the token valid. -/
def ensure_valid_token (env : AuthEnv) : AuthOutcome :=
  if env.hasSession then
    match env.session.twitch_credentials, env.session.twitch_public_credentials with
    | some creds, _ => ensure_valid_token_core env .userCreds creds
    | none, some creds => ensure_valid_token_core env .publicCreds creds
    | none, none => ⟨false, 0, 0, env.session⟩
  else
    ⟨false, 0, 0, env.session⟩

/-! ### Claim C6 -/

/-- A session credential whose `last_validated` lies two hours in the past,
with a refresh token, whose access token still validates successfully. -/
def staleButValidEnv : AuthEnv :=
  { hasSession := true
    session :=
      { twitch_credentials := some
          { access_token := some "at", refresh_token := some "rt",
            last_validated := some 0 }
        twitch_public_credentials := none }
    currentTime := 7200
    validateResult := true
    refreshResult := .ok
      { access_token := some "at2", refresh_token := some "rt2",
        last_validated := none } }

/-- C6, counterexample.  The claim says a credential whose `last_validated`
is more than an hour old and which carries a valid refresh token gets
exactly one refresh call.  In the source a stale credential is first
re-validated, and the refresh happens only when that validation fails: for
a stale credential whose access token is still valid no refresh call is
made at all. -/
theorem c6_no_refresh_when_still_valid :
    (7200 : Int) - 0 ≥ 3600 ∧
    (ensure_valid_token staleButValidEnv).refreshCalls = 0 ∧
    (ensure_valid_token staleButValidEnv).refreshCalls ≠ 1 ∧
    (ensure_valid_token staleButValidEnv).result = true := by
  refine ⟨by norm_num, rfl, by decide, rfl⟩

/-- C6, amended.  For a session credential with an access token: if
`last_validated` is at least an hour old, `ensure_valid_token` makes exactly
one validation call and stamps `last_validated` with the current time (on
the refreshed credential when a refresh happens, on the re-validated one
otherwise, unless the slot is dropped after a failed refresh); it makes
exactly one refresh call if and only if the validation fails and a refresh
token is present (returning `True` on refresh success and discarding the
slot and returning `False` on refresh failure; with no refresh attempted the
validation verdict is returned).  If `last_validated` is within the past
hour, no validation or refresh call is made, the session is untouched, and
`True` is returned. -/
theorem c6_hourly_validation_policy (env : AuthEnv) (creds : TwitchSessionCreds)
    (hs : env.hasSession = true)
    (hc : env.session.twitch_credentials = some creds)
    (hat : creds.access_token.isSome) :
    (env.currentTime - creds.last_validated.getD 0 ≥ 3600 →
      (ensure_valid_token env).validateCalls = 1 ∧
      ((ensure_valid_token env).refreshCalls = 1 ↔
        (env.validateResult = false ∧ creds.refresh_token.isSome)) ∧
      ((ensure_valid_token env).session.twitch_credentials = none ∨
        ∃ c, (ensure_valid_token env).session.twitch_credentials = some c ∧
          c.last_validated = some env.currentTime) ∧
      (env.validateResult = true → (ensure_valid_token env).result = true) ∧
      (env.validateResult = false → creds.refresh_token.isSome →
        ((env.refreshResult = .error () →
            (ensure_valid_token env).result = false ∧
            (ensure_valid_token env).session.twitch_credentials = none) ∧
         (∀ nd, env.refreshResult = .ok nd →
            (ensure_valid_token env).result = true ∧
            (ensure_valid_token env).session.twitch_credentials =
              some { nd with last_validated := some env.currentTime })))) ∧
    (env.currentTime - creds.last_validated.getD 0 < 3600 →
      ensure_valid_token env = ⟨true, 0, 0, env.session⟩) := by
  have hture : ensure_valid_token env = ensure_valid_token_core env .userCreds creds := by
    simp [ensure_valid_token, hs, hc]
  constructor
  · intro hstale
    rw [hture]
    obtain ⟨at0, hat0⟩ := Option.isSome_iff_exists.mp hat
    unfold ensure_valid_token_core
    simp only [hat0, Option.isNone_some, Bool.false_eq_true, if_false, if_pos hstale]
    rcases hv : env.validateResult with _ | _
    · rcases hrt : creds.refresh_token with _ | rt
      · simp [setSlot, hv, hrt]
      · rcases hrr : env.refreshResult with e | nd
        · cases e
          simp [setSlot, hv, hrt, hrr]
        · simp [setSlot, hv, hrt, hrr]
    · simp [setSlot, hv]
  · intro hfresh
    rw [hture]
    unfold ensure_valid_token_core
    obtain ⟨at0, hat0⟩ := Option.isSome_iff_exists.mp hat
    simp [hat0, if_neg (by omega : ¬ env.currentTime - creds.last_validated.getD 0 ≥ 3600)]

/-- A stale credential whose validation fails and whose refresh succeeds. -/
def staleRefreshEnv : AuthEnv :=
  { hasSession := true
    session :=
      { twitch_credentials := some
          { access_token := some "at", refresh_token := some "rt",
            last_validated := some 100 }
        twitch_public_credentials := none }
    currentTime := 7200
    validateResult := false
    refreshResult := .ok
      { access_token := some "new", refresh_token := some "nrt",
        last_validated := none } }

/-- C6, witness for `c6_hourly_validation_policy`: a stale credential with a
failing access token and a refresh token gets exactly one validation call
and exactly one refresh call. -/
theorem c6_hourly_validation_policy_witness :
    (ensure_valid_token staleRefreshEnv).validateCalls = 1 ∧
    (ensure_valid_token staleRefreshEnv).refreshCalls = 1 := by
  have h := (c6_hourly_validation_policy staleRefreshEnv
    { access_token := some "at", refresh_token := some "rt",
      last_validated := some 100 }
    rfl rfl (by decide)).1 (by decide)
  exact ⟨h.1, h.2.1.mpr ⟨rfl, by decide⟩⟩

/-! ### YouTube live-status checker: `app/services/google/user.py` -/

/-- Tests whether `pre` is an initial segment of `l` (character lists). -/
def leadsWith : List Char → List Char → Bool
  | [], _ => true
  | _ :: _, [] => false
  | a :: as, b :: bs => a == b && leadsWith as bs

/-- Python's substring containment `needle in hay`, on character lists. -/
def containsSeq (needle : List Char) : List Char → Bool
  | [] => leadsWith needle []
  | c :: rest => leadsWith needle (c :: rest) || containsSeq needle rest

/-- Everything after the first `=` of the list, if any: the model of the
regex `(?<==).*` used by `extract_video_id`. -/
def afterFirstEq : List Char → Option (List Char)
  | [] => none
  | '=' :: rest => some rest
  | _ :: rest => afterFirstEq rest

/-- Embedding of `extract_video_id` (google/user.py lines 109-114): the text
after the first `=` of the URL, or `None` when the URL has no `=` (a match
that captures the empty string yields `""`). -/
def extract_video_id (url : String) : Option String :=
  (afterFirstEq url.toList).map fun cs => String.mk cs

/-- The `"/watch?v="` marker the live page's canonical URL is tested
against. -/
def watchMarker : List Char := "/watch?v=".toList

/-- The `liveStreamingDetails` part of a YouTube Data API video item. -/
structure LiveDetails where
  actualStartTime : Option String
  scheduledStartTime : Option String
  concurrentViewers : Option Int
  activeLiveChatId : Option String
deriving Repr, DecidableEq

/-- A thumbnail entry of a video snippet. -/
structure VideoThumb where
  url : Option String
deriving Repr, DecidableEq

/-- The `snippet.thumbnails` dict of a video item, restricted to the four
qualities `extract_video_metadata` probes. -/
structure VideoThumbs where
  standard : Option VideoThumb
  high : Option VideoThumb
  medium : Option VideoThumb
  defaultThumb : Option VideoThumb
deriving Repr, DecidableEq

/-- The `snippet` part of a YouTube Data API video item. -/
structure VideoSnippet where
  title : Option String
  defaultAudioLanguage : Option String
  thumbnails : Option VideoThumbs
deriving Repr, DecidableEq

/-- A YouTube Data API video item. -/
structure VideoItem where
  snippet : Option VideoSnippet
  liveStreamingDetails : Option LiveDetails
deriving Repr, DecidableEq

/-- The parsed YouTube Data API response of `fetch_video_details`:
an optional top-level `error` member and an optional `items` list. -/
structure VideoListResponse where
  errorField : Option String
  items : Option (List VideoItem)
deriving Repr, DecidableEq

/-- The per-channel status dict built by
`check_channel_live_status_with_session`.  Every field is `Option`-typed
because the source assembles the dict incrementally (`none` = key never
set); in particular the API-error return value `{"error": ...}` carries no
`live` key at all. -/
structure ChannelStatus where
  cid : Option String
  live : Option Bool
  configured : Option Bool
  vid : Option String
  errorMsg : Option String
  title : Option String
  language : Option String
  thumbnail : Option String
  scheduledStartTime : Option String
  actualStartTime : Option String
  viewer_count : Option Int
  live_chat_id : Option String
deriving Repr, DecidableEq

/-- Outcomes of the two network calls made for one channel probe:
fetching the `/live` page's canonical URL, and the Data API video-details
fetch.  `PyExc`-style errors are modelled with `Except Unit`. -/
structure LiveCheckEnv where
  canonical : Except Unit (Option String)
  videoFetch : Except Unit VideoListResponse
deriving Repr

/-- The thumbnail-selection loop of `extract_video_metadata`: the first
quality present in the thumbnails dict is chosen and its `["url"]` is read
by subscript — raising `KeyError` when that entry has no `url`.  Qualities
after the first present one are not examined. -/
def pickThumbnail (cd : ChannelStatus) :
    List (Option VideoThumb) → Except Unit ChannelStatus
  | [] => .ok cd
  | some t :: _ =>
      match t.url with
      | some u => .ok { cd with thumbnail := some u }
      | none => .error ()
  | none :: rest => pickThumbnail cd rest

/-- Embedding of `extract_video_metadata` (google/user.py lines 129-160).
`item["snippet"]` and `item["snippet"]["thumbnails"]` are subscript
accesses that raise when absent; `liveStreamingDetails` is probed with
`in`, and `live` is set to whether `actualStartTime` is present. -/
def extract_video_metadata (item : VideoItem) (cd : ChannelStatus) :
    Except Unit ChannelStatus :=
  match item.snippet with
  | none => .error ()
  | some sn =>
  let cd1 := { cd with title := sn.title, language := sn.defaultAudioLanguage }
  match sn.thumbnails with
  | none => .error ()
  | some th =>
  match pickThumbnail cd1 [th.standard, th.high, th.medium, th.defaultThumb] with
  | .error e => .error e
  | .ok cd2 =>
  match item.liveStreamingDetails with
  | none => .ok cd2
  | some ld =>
    let cd3 := match ld.scheduledStartTime with
               | some s => { cd2 with scheduledStartTime := some s }
               | none => cd2
    let isLive := ld.actualStartTime.isSome
    let cd4 := { cd3 with live := some isLive }
    if isLive then
      .ok { cd4 with
              actualStartTime := ld.actualStartTime
              viewer_count := some (ld.concurrentViewers.getD 0)
              live_chat_id := ld.activeLiveChatId }
    else
      .ok cd4

/-- The status record every channel probe starts from. -/
def baseStatus (channel_id : String) : ChannelStatus :=
  { cid := some channel_id, live := some false, configured := some false,
    vid := none, errorMsg := none, title := none, language := none,
    thumbnail := none, scheduledStartTime := none, actualStartTime := none,
    viewer_count := none, live_chat_id := none }

/-- The record returned by the catch-all `except Exception` handler:
`{"cid": ..., "live": False, "error": str(e)}`. -/
def exceptionStatus (channel_id : String) : ChannelStatus :=
  { cid := some channel_id, live := some false, configured := none,
    vid := none, errorMsg := some "exception", title := none,
    language := none, thumbnail := none, scheduledStartTime := none,
    actualStartTime := none, viewer_count := none, live_chat_id := none }

/-- The bare `{"error": ...}` record returned when the Data API response
carries an `error` member: it has no `cid` and no `live` key. -/
def apiErrorStatus (err : String) : ChannelStatus :=
  { cid := none, live := none, configured := none, vid := none,
    errorMsg := some err, title := none, language := none,
    thumbnail := none, scheduledStartTime := none, actualStartTime := none,
    viewer_count := none, live_chat_id := none }

/-- Embedding of `check_channel_live_status_with_session`
(google/user.py lines 53-88): probe the `/live` page's canonical URL, test
it for `"/watch?v="`, extract the video id, fetch the video details, and
extract the metadata; any exception along the way yields the catch-all
not-live record. -/
def check_channel_live_status_with_session (channel_id : String)
    (env : LiveCheckEnv) : ChannelStatus :=
  match env.canonical with
  | .error _ => exceptionStatus channel_id
  | .ok none => baseStatus channel_id
  | .ok (some curl) =>
    if !containsSeq watchMarker curl.toList then
      baseStatus channel_id
    else
      let d1 := { baseStatus channel_id with configured := some true }
      match extract_video_id curl with
      | none => d1
      | some vid =>
        if vid = "" then d1
        else
          let d2 := { d1 with vid := some vid }
          match env.videoFetch with
          | .error _ => exceptionStatus channel_id
          | .ok resp =>
            match resp.errorField with
            | some err => apiErrorStatus err
            | none =>
              match resp.items with
              | none => d2
              | some [] => d2
              | some (item :: _) =>
                match extract_video_metadata item d2 with
                | .ok cd => cd
                | .error _ => exceptionStatus channel_id

/-- Whether the thumbnail-selection loop of `extract_video_metadata` avoids a
`KeyError`: either no quality is present, or the first present quality has a
`url`. -/
def thumbnailSafe : List (Option VideoThumb) → Bool
  | [] => true
  | some t :: _ => t.url.isSome
  | none :: rest => thumbnailSafe rest

/-- Whether `extract_video_metadata` runs without raising on this item: the
item has a `snippet` with a `thumbnails` dict whose first present quality
carries a `url`. -/
def metadataSafe (item : VideoItem) : Bool :=
  match item.snippet with
  | none => false
  | some sn =>
    match sn.thumbnails with
    | none => false
    | some th => thumbnailSafe [th.standard, th.high, th.medium, th.defaultThumb]

theorem pickThumbnail_live (entries : List (Option VideoThumb)) :
    ∀ cd cd', pickThumbnail cd entries = .ok cd' → cd'.live = cd.live := by
  induction entries with
  | nil =>
    intro cd cd' h
    simp [pickThumbnail] at h
    simp [← h]
  | cons e rest ih =>
    intro cd cd' h
    cases e with
    | none => exact ih cd cd' h
    | some t =>
      cases ht : t.url with
      | none => simp [pickThumbnail, ht] at h
      | some u =>
        simp [pickThumbnail, ht] at h
        simp [← h]

theorem pickThumbnail_ok_iff (entries : List (Option VideoThumb)) :
    ∀ cd, (∃ cd', pickThumbnail cd entries = .ok cd') ↔ thumbnailSafe entries = true := by
  induction entries with
  | nil => intro cd; simp [pickThumbnail, thumbnailSafe]
  | cons e rest ih =>
    intro cd
    cases e with
    | none => simpa [pickThumbnail, thumbnailSafe] using ih cd
    | some t =>
      cases ht : t.url with
      | none => simp [pickThumbnail, thumbnailSafe, ht]
      | some u => simp [pickThumbnail, thumbnailSafe, ht]

/-- Behavior of `extract_video_metadata`: it raises exactly when the item is
not `metadataSafe`, and otherwise reports `live` as the presence of
`actualStartTime` in the item's `liveStreamingDetails` (keeping the incoming
`live` value when there are no `liveStreamingDetails`). -/
theorem extract_video_metadata_spec (item : VideoItem) (cd : ChannelStatus) :
    (metadataSafe item = false → extract_video_metadata item cd = .error ()) ∧
    (metadataSafe item = true → ∃ cd', extract_video_metadata item cd = .ok cd' ∧
      cd'.live = (match item.liveStreamingDetails with
                  | some ld => some ld.actualStartTime.isSome
                  | none => cd.live)) := by
  obtain ⟨sn?, ld?⟩ := item
  cases sn? with
  | none => simp [metadataSafe, extract_video_metadata]
  | some sn =>
    cases hth : sn.thumbnails with
    | none => simp [metadataSafe, extract_video_metadata, hth]
    | some th =>
      constructor
      · intro hnotsafe
        simp only [metadataSafe, hth] at hnotsafe
        have hnone := (pickThumbnail_ok_iff
          [th.standard, th.high, th.medium, th.defaultThumb]
          { cd with title := sn.title, language := sn.defaultAudioLanguage }).not.mpr
          (by simp [hnotsafe])
        push_neg at hnone
        simp only [extract_video_metadata, hth]
        rcases hpt : pickThumbnail
            { cd with title := sn.title, language := sn.defaultAudioLanguage }
            [th.standard, th.high, th.medium, th.defaultThumb] with e | cd2
        · cases e; rfl
        · exact absurd hpt (hnone cd2)
      · intro hsafe
        simp only [metadataSafe, hth] at hsafe
        obtain ⟨cd2, hpt⟩ := (pickThumbnail_ok_iff
          [th.standard, th.high, th.medium, th.defaultThumb]
          { cd with title := sn.title, language := sn.defaultAudioLanguage }).mpr hsafe
        have hlive2 := pickThumbnail_live _ _ _ hpt
        simp only [extract_video_metadata, hth, hpt]
        cases ld? with
        | none =>
          refine ⟨cd2, rfl, ?_⟩
          simpa using hlive2
        | some ld =>
          cases hsst : ld.scheduledStartTime <;>
            cases hast : ld.actualStartTime <;>
              simp [hsst, hast]

/-! ### Claim C4 -/

/-- An environment whose canonical URL carries a watch reference and whose
video item has `liveStreamingDetails.actualStartTime` but no `snippet`. -/
def liveNoSnippetEnv : LiveCheckEnv :=
  { canonical := .ok (some "https://www.youtube.com/watch?v=abc")
    videoFetch := .ok
      { errorField := none
        items := some [{ snippet := none,
                         liveStreamingDetails := some
                           { actualStartTime := some "2024-01-01T00:00:00Z",
                             scheduledStartTime := none,
                             concurrentViewers := some 5,
                             activeLiveChatId := none } }] } }

/-- C4, counterexample.  The claim says a channel is reported live exactly
when the canonical URL carries a watch-video reference with an extractable
id and the video's `liveStreamingDetails` contains `actualStartTime`.  Here
both conditions hold, but the video item has no `snippet`, so
`extract_video_metadata` raises (`item["snippet"]`), the catch-all handler
answers, and the channel is reported not live. -/
theorem c4_live_despite_conditions :
    containsSeq watchMarker "https://www.youtube.com/watch?v=abc".toList = true ∧
    extract_video_id "https://www.youtube.com/watch?v=abc" = some "abc" ∧
    (check_channel_live_status_with_session "UCx" liveNoSnippetEnv).live
      = some false := by
  refine ⟨by decide, by decide, rfl⟩

/-- C4, amended.  A channel is reported live (`live = True` in its status
record) iff the canonical URL of its `/live` page is fetched and contains a
watch-video reference with a non-empty extractable video id, the video
fetch succeeds without a top-level `error` member and with a non-empty
`items` list, the first item's snippet metadata extraction does not raise
(`metadataSafe`), and the item's `liveStreamingDetails` contains
`actualStartTime`; in every other case — including any exception along the
way — the status record does not carry `live = True`. -/
theorem c4_live_status_iff (cid : String) (env : LiveCheckEnv) :
    (check_channel_live_status_with_session cid env).live = some true ↔
    (∃ curl v resp item rest ld,
      env.canonical = .ok (some curl) ∧
      containsSeq watchMarker curl.toList = true ∧
      extract_video_id curl = some v ∧ v ≠ "" ∧
      env.videoFetch = .ok resp ∧ resp.errorField = none ∧
      resp.items = some (item :: rest) ∧ metadataSafe item = true ∧
      item.liveStreamingDetails = some ld ∧ ld.actualStartTime.isSome = true) := by
  obtain ⟨canon, vf⟩ := env
  unfold check_channel_live_status_with_session
  rcases canon with e | copt
  · simp [exceptionStatus]
  rcases copt with _ | curl
  · simp [baseStatus]
  rcases hws : containsSeq watchMarker curl.data with _ | _
  · simp [String.toList, hws, baseStatus]
  rcases hev : extract_video_id curl with _ | v
  · simp [String.toList, hws, hev, baseStatus]
  by_cases hv0 : v = ""
  · subst hv0
    simp [String.toList, hws, hev, baseStatus]
  rcases vf with e | resp
  · simp [String.toList, hws, hev, hv0, exceptionStatus]
  rcases herr : resp.errorField with _ | err
  swap
  · simp [String.toList, hws, hev, hv0, herr, apiErrorStatus]
  rcases hitems : resp.items with _ | items
  · simp [String.toList, hws, hev, hv0, herr, hitems, baseStatus]
  rcases items with _ | ⟨item, rest⟩
  · simp [String.toList, hws, hev, hv0, herr, hitems, baseStatus]
  rcases hmeta : metadataSafe item with _ | _
  · have hx := (extract_video_metadata_spec item
      { cid := some cid, live := some false, configured := some true,
        vid := some v, errorMsg := none, title := none, language := none,
        thumbnail := none, scheduledStartTime := none, actualStartTime := none,
        viewer_count := none, live_chat_id := none }).1 hmeta
    simp [String.toList, hws, hev, hv0, herr, hitems, hmeta, hx, exceptionStatus,
      baseStatus]
  · obtain ⟨cd2, hok, hlive⟩ := (extract_video_metadata_spec item
      { cid := some cid, live := some false, configured := some true,
        vid := some v, errorMsg := none, title := none, language := none,
        thumbnail := none, scheduledStartTime := none, actualStartTime := none,
        viewer_count := none, live_chat_id := none }).2 hmeta
    rcases hld : item.liveStreamingDetails with _ | ld
    · simp only [hld] at hlive
      simp [String.toList, hws, hev, hv0, herr, hitems, hmeta, hok, hlive, hld,
        baseStatus, exceptionStatus]
    · simp only [hld] at hlive
      rcases hast : ld.actualStartTime with _ | st0
      · simp [String.toList, hws, hev, hv0, herr, hitems, hmeta, hok, hlive, hld, hast,
          baseStatus, exceptionStatus]
      · simp [String.toList, hws, hev, hv0, herr, hitems, hmeta, hok, hlive, hld, hast,
          baseStatus, exceptionStatus]

/-- A fully well-formed live channel probe: watch reference, healthy video
item, `actualStartTime` present. -/
def fullyLiveEnv : LiveCheckEnv :=
  { canonical := .ok (some "https://www.youtube.com/watch?v=abc")
    videoFetch := .ok
      { errorField := none
        items := some
          [{ snippet := some
               { title := some "stream", defaultAudioLanguage := none,
                 thumbnails := some
                   { standard := none, high := some { url := some "https://img" },
                     medium := none, defaultThumb := none } },
             liveStreamingDetails := some
               { actualStartTime := some "2024-01-01T00:00:00Z",
                 scheduledStartTime := none,
                 concurrentViewers := some 5,
                 activeLiveChatId := some "chat" } }] } }

/-- C4, witness for `c4_live_status_iff`: a fully live probe is reported
live. -/
theorem c4_live_status_iff_witness :
    (check_channel_live_status_with_session "UCw" fullyLiveEnv).live = some true := by
  refine (c4_live_status_iff "UCw" fullyLiveEnv).mpr
    ⟨"https://www.youtube.com/watch?v=abc", "abc", _, _, [], _,
      rfl, by decide, by decide, by decide, rfl, rfl, rfl, by decide, rfl, by decide⟩

/-! ### Follows aggregator: `app/api/routes/shared/following.py` -/

/-- Evaluation of a Python list comprehension whose element expression may
raise: elements are produced in order, and the first exception propagates. -/
def mapExcept (f : α → Except ε β) : List α → Except ε (List β)
  | [] => .ok []
  | a :: as =>
    match f a with
    | .error e => .error e
    | .ok b =>
      match mapExcept f as with
      | .error e => .error e
      | .ok bs => .ok (b :: bs)

/-- The decoded `twitch_credentials` session dict as seen by
`get_twitch_streams`: the `access_token` entry, plus whether the dict
carries any other keys (for Python truthiness). -/
structure TwitchCreds where
  access_token : Option String
  hasOtherKeys : Bool
deriving Repr, DecidableEq

/-- Python truthiness of the credentials dict: non-empty. -/
def TwitchCreds.truthy (c : TwitchCreds) : Bool :=
  c.access_token.isSome || c.hasOtherKeys

/-- The decoded `twitch_user_profile` session dict as seen by
`get_twitch_streams`. -/
structure TwitchUserProfile where
  id : Option String
  hasOtherKeys : Bool
deriving Repr, DecidableEq

/-- Python truthiness of the user dict: non-empty. -/
def TwitchUserProfile.truthy (u : TwitchUserProfile) : Bool :=
  u.id.isSome || u.hasOtherKeys

/-- Environment of one `get_twitch_streams` call: the outcome of
`require_twitch_auth` (`.error` covering both its `HTTPException` and any
other exception) and the outcome of `twitch_user.get_user_follows` (a list
of `FollowedStreamer` schema objects, or an exception). -/
structure TwitchFollowEnv where
  auth : Except Unit (TwitchCreds × TwitchUserProfile)
  fetch : Except Unit (List FollowedStreamer)

/-- Embedding of `get_twitch_streams` (following.py lines 60-86).  An auth
failure hits either the inner `except HTTPException` (returns `[]`) or the
outer `except Exception` (returns the still-empty list); a missing id or
access token skips the fetch; a fetch or conversion exception is swallowed
by the outer handler, leaving the empty list. -/
def get_twitch_streams (env : TwitchFollowEnv) : List FollowedStreamer :=
  match env.auth with
  | .error _ => []
  | .ok (creds, user) =>
    if creds.truthy && user.truthy && user.id.isSome && creds.access_token.isSome then
      match env.fetch with
      | .error _ => []
      | .ok raw =>
        match mapExcept
            (fun s => stream_data_to_unified_format s.model_dump "twitch") raw with
        | .ok l => l
        | .error _ => []
    else []

/-- Environment of one `get_youtube_streams` call: the outcome of
`require_google_auth`, and the outcome of the
`fetch_all_subscriptions` / `check_all_channels_live_status` /
`enrich_and_filter_live_subscriptions` pipeline up to the point where the
live-filtered enriched subscriptions are standardized. -/
structure YtFollowEnv where
  auth : Except Unit Unit
  pipeline : Except Unit (List YtSubscription)

/-- Embedding of `get_youtube_streams` (following.py lines 89-121).  The
live-filtered subscriptions go through `standardize_data` and then
`stream_data_to_unified_format`; any exception in the pipeline is swallowed
by the outer handler, leaving the empty list.  (A `google.oauth2`
credentials object is always truthy, so the `if credentials:` test
passes whenever auth succeeded.) -/
def get_youtube_streams (env : YtFollowEnv) : List FollowedStreamer :=
  match env.auth with
  | .error _ => []
  | .ok _ =>
    match env.pipeline with
    | .error _ => []
    | .ok liveSubs =>
      let raw := liveSubs.map Google.standardize_data
      match mapExcept
          (fun s => stream_data_to_unified_format s.model_dump "youtube") raw with
      | .ok l => l
      | .error _ => []

/-- Environment of one `/following` request: the per-user id computed by
`get_user_id_from_session`, the cached value under the unified key (already
parsed and validated), the per-platform session flags, and the two
platform environments. -/
structure FollowingEnv where
  user_id : String
  cacheGet : Except Unit (Option (List FollowedStreamer))
  hasTwitchSession : Bool
  hasYoutubeSession : Bool
  twitch : TwitchFollowEnv
  youtube : YtFollowEnv

/-- The Twitch contribution of one request (following.py line 181). -/
def twitchPart (env : FollowingEnv) : List FollowedStreamer :=
  if env.hasTwitchSession then get_twitch_streams env.twitch else []

/-- The YouTube contribution of one request (following.py line 182). -/
def youtubePart (env : FollowingEnv) : List FollowedStreamer :=
  if env.hasYoutubeSession then get_youtube_streams env.youtube else []

/-- The comparison under `results.sort(key=lambda x: x.viewer_count,
reverse=True)`: a stable sort that puts higher viewer counts first. -/
def viewerDescLE (a b : FollowedStreamer) : Bool :=
  decide (b.viewer_count ≤ a.viewer_count)

/-- One `set_cache` call issued by the handler. -/
structure CacheWrite where
  key : String
  value : List FollowedStreamer
  ttl : Nat
deriving Repr, DecidableEq

/-- Observable outcome of one `/following` request: the response body,
whether it was served from the cache, and the cache writes issued. -/
structure FollowingResult where
  streams : List FollowedStreamer
  fromCache : Bool
  writes : List CacheWrite
deriving Repr, DecidableEq

/-- following.py line 23. -/
def CACHE_EXPIRY_SECONDS : Nat := 120

/-- Embedding of the `get_followed_streams` handler (following.py lines
158-195).  A cache-backend exception propagates (no handler); a truthy
cached value (a non-empty list) is served as-is; otherwise both platform
parts are fetched, concatenated, stably sorted by descending viewer count,
written through under the unified per-user key with
`CACHE_EXPIRY_SECONDS`, and returned.  The `set_cache` boolean result is
discarded by the source, so the write is recorded unconditionally. -/
def get_followed_streams (env : FollowingEnv) : Except Unit FollowingResult :=
  match env.cacheGet with
  | .error e => .error e
  | .ok cached =>
    match cached with
    | some (x :: xs) => .ok ⟨x :: xs, true, []⟩
    | _ =>
      let results := (twitchPart env ++ youtubePart env).mergeSort viewerDescLE
      .ok ⟨results, false,
        [⟨"unified:following:" ++ env.user_id, results, CACHE_EXPIRY_SECONDS⟩]⟩

/-! ### Claim C1 -/

/-- C1.  For each supported platform, a missing/invalid session credential
(`require_*_auth` raising) or any exception in the platform's fetch
pipeline makes the per-platform fetch return the empty list instead of
raising (the functions are total by construction), and the aggregate
handler still answers normally on the fetch path whatever the platform
environments contain. -/
theorem c1_platform_failures_yield_empty (te : TwitchFollowEnv)
    (ye : YtFollowEnv) (fe : FollowingEnv) :
    (∀ e, te.auth = .error e → get_twitch_streams te = []) ∧
    (∀ e, te.fetch = .error e → get_twitch_streams te = []) ∧
    (∀ e, ye.auth = .error e → get_youtube_streams ye = []) ∧
    (∀ e, ye.pipeline = .error e → get_youtube_streams ye = []) ∧
    (fe.cacheGet = .ok none → ∃ res, get_followed_streams fe = .ok res) := by
  refine ⟨?_, ?_, ?_, ?_, ?_⟩
  · intro e he
    simp [get_twitch_streams, he]
  · intro e he
    unfold get_twitch_streams
    rcases te.auth with e2 | ⟨creds, user⟩
    · rfl
    · simp only [he]
      split <;> rfl
  · intro e he
    simp [get_youtube_streams, he]
  · intro e he
    unfold get_youtube_streams
    rcases ye.auth with e2 | u
    · rfl
    · simp [he]
  · intro hmiss
    exact ⟨⟨(twitchPart fe ++ youtubePart fe).mergeSort viewerDescLE, false,
      [⟨"unified:following:" ++ fe.user_id,
        (twitchPart fe ++ youtubePart fe).mergeSort viewerDescLE,
        CACHE_EXPIRY_SECONDS⟩]⟩, by simp [get_followed_streams, hmiss]⟩

/-- C1, witness for `c1_platform_failures_yield_empty` at concrete failing
environments. -/
theorem c1_platform_failures_yield_empty_witness :
    get_twitch_streams ⟨.error (), .ok []⟩ = [] ∧
    get_twitch_streams ⟨.ok (⟨some "at", false⟩, ⟨some "u", false⟩), .error ()⟩ = [] ∧
    get_youtube_streams ⟨.error (), .ok []⟩ = [] ∧
    get_youtube_streams ⟨.ok (), .error ()⟩ = [] ∧
    (∃ res, get_followed_streams
      ⟨"anonymous", .ok none, true, true, ⟨.error (), .error ()⟩,
       ⟨.error (), .error ()⟩⟩ = .ok res) := by
  refine ⟨?_, ?_, ?_, ?_, ?_⟩
  · exact (c1_platform_failures_yield_empty ⟨.error (), .ok []⟩
      ⟨.ok (), .ok []⟩
      ⟨"anonymous", .ok none, true, true, ⟨.error (), .error ()⟩,
       ⟨.error (), .error ()⟩⟩).1 () rfl
  · exact (c1_platform_failures_yield_empty
      ⟨.ok (⟨some "at", false⟩, ⟨some "u", false⟩), .error ()⟩
      ⟨.ok (), .ok []⟩
      ⟨"anonymous", .ok none, true, true, ⟨.error (), .error ()⟩,
       ⟨.error (), .error ()⟩⟩).2.1 () rfl
  · exact (c1_platform_failures_yield_empty ⟨.error (), .ok []⟩
      ⟨.error (), .ok []⟩
      ⟨"anonymous", .ok none, true, true, ⟨.error (), .error ()⟩,
       ⟨.error (), .error ()⟩⟩).2.2.1 () rfl
  · exact (c1_platform_failures_yield_empty ⟨.error (), .ok []⟩
      ⟨.ok (), .error ()⟩
      ⟨"anonymous", .ok none, true, true, ⟨.error (), .error ()⟩,
       ⟨.error (), .error ()⟩⟩).2.2.2.1 () rfl
  · exact (c1_platform_failures_yield_empty ⟨.error (), .ok []⟩
      ⟨.ok (), .ok []⟩
      ⟨"anonymous", .ok none, true, true, ⟨.error (), .error ()⟩,
       ⟨.error (), .error ()⟩⟩).2.2.2.2 rfl

/-! ### Claim C3 -/

theorem viewerDescLE_trans (a b c : FollowedStreamer) :
    viewerDescLE a b → viewerDescLE b c → viewerDescLE a c := by
  simp only [viewerDescLE, decide_eq_true_eq]
  omega

theorem viewerDescLE_total (a b : FollowedStreamer) :
    viewerDescLE a b || viewerDescLE b a := by
  simp only [viewerDescLE, Bool.or_eq_true, decide_eq_true_eq]
  omega

/-- A strictly higher viewer count moves ahead of a lower one when a
two-element list is sorted. -/
theorem mergeSort_pair_of_gt (a b : FollowedStreamer)
    (h : ¬ b.viewer_count ≤ a.viewer_count) :
    List.mergeSort [a, b] viewerDescLE = [b, a] := by
  obtain ⟨l₁, l₂, h1, h2, h3⟩ :=
    List.mergeSort_cons viewerDescLE_trans viewerDescLE_total a [b]
  rw [List.mergeSort_singleton] at h2
  cases l₁ with
  | nil =>
    simp only [List.nil_append] at h1 h2
    subst h2
    have hs := List.sorted_mergeSort viewerDescLE_trans viewerDescLE_total [a, b]
    rw [h1] at hs
    have hab := List.rel_of_pairwise_cons hs (List.mem_cons_self b [])
    simp [viewerDescLE, decide_eq_true_eq] at hab
    exact absurd hab h
  | cons x xs =>
    cases xs with
    | nil =>
      cases h2
      simpa using h1
    | cons y ys =>
      exfalso
      have := congrArg List.length h2
      simp at this

/-- C3.  On a cache miss, the handler's response is a permutation of the
Twitch list followed by the YouTube list, sorted by descending viewer
count, and the sort is stable: for every viewer count the records with that
count appear exactly in their concatenation order (Twitch entries before
YouTube entries).  In particular a single Twitch stream with 500 viewers
and a single YouTube stream with 1200 viewers come back YouTube first. -/
theorem c3_sorted_concatenation (env : FollowingEnv) (res : FollowingResult)
    (hmiss : env.cacheGet = .ok none)
    (hrun : get_followed_streams env = .ok res) :
    res.streams.Perm (twitchPart env ++ youtubePart env) ∧
    res.streams.Pairwise (fun a b => b.viewer_count ≤ a.viewer_count) ∧
    (∀ k : Int, res.streams.filter (fun s => s.viewer_count == k) =
      (twitchPart env ++ youtubePart env).filter (fun s => s.viewer_count == k)) ∧
    (∀ s t, twitchPart env = [s] → youtubePart env = [t] →
      s.viewer_count = 500 → t.viewer_count = 1200 → res.streams = [t, s]) := by
  have hres : res.streams =
      (twitchPart env ++ youtubePart env).mergeSort viewerDescLE := by
    simp only [get_followed_streams, hmiss] at hrun
    cases hrun
    rfl
  refine ⟨?_, ?_, ?_, ?_⟩
  · rw [hres]
    exact List.mergeSort_perm _ _
  · rw [hres]
    have hs := List.sorted_mergeSort viewerDescLE_trans viewerDescLE_total
      (twitchPart env ++ youtubePart env)
    exact hs.imp (by simp [viewerDescLE, decide_eq_true_eq])
  · intro k
    rw [hres]
    set l := twitchPart env ++ youtubePart env with hl
    set p : FollowedStreamer → Bool := fun s => s.viewer_count == k with hp
    have hmem : ∀ x ∈ l.filter p, ∀ y ∈ l.filter p, viewerDescLE x y := by
      intro x hx y hy
      have hxk := List.of_mem_filter hx
      have hyk := List.of_mem_filter hy
      simp only [hp, beq_iff_eq] at hxk hyk
      simp [viewerDescLE, hxk, hyk]
    have hpw : (l.filter p).Pairwise (fun x y => viewerDescLE x y) :=
      List.pairwise_of_forall_mem_list hmem
    have hsub : List.Sublist (l.filter p) (l.mergeSort viewerDescLE) :=
      List.sublist_mergeSort viewerDescLE_trans viewerDescLE_total hpw
        (List.filter_sublist l)
    have hsub2 : List.Sublist ((l.filter p).filter p)
        ((l.mergeSort viewerDescLE).filter p) :=
      hsub.filter p
    rw [List.filter_filter] at hsub2
    have hff : l.filter (fun a => p a && p a) = l.filter p := by
      congr 1
      funext a
      cases p a <;> rfl
    rw [hff] at hsub2
    have hperm : ((l.mergeSort viewerDescLE).filter p).Perm (l.filter p) :=
      (List.mergeSort_perm l viewerDescLE).filter p
    exact (hsub2.eq_of_length hperm.length_eq.symm).symm
  · intro s t htw hyt h500 h1200
    rw [hres, htw, hyt]
    exact mergeSort_pair_of_gt s t (by omega)

/-- A Twitch followed streamer with 500 viewers (a fixed point of the
`model_dump` / `stream_data_to_unified_format` round trip). -/
def twStreamW : FollowedStreamer :=
  { id := "tw", login := "tw", display_name := "tw", type := "",
    broadcaster_type := "", description := "", profile_image_url := "",
    offline_image_url := "", view_count := 0, created_at := "",
    user_id := "tw", user_login := "tw", user_name := "tw", game_id := "",
    game_name := "", title := "t", viewer_count := 500, started_at := "",
    language := "", thumbnail_url := "", tag_ids := [], tags := [],
    is_mature := false, livechat_id := none, video_id := none,
    platform := "twitch" }

/-- A live YouTube subscription with 1200 concurrent viewers. -/
def ytSubW : YtSubscription :=
  { snippet := some
      { resourceId := some ⟨some "ytchan"⟩, customUrl := some "@yt",
        title := some "YT", description := none, thumbnails := none }
    livestream_info := some
      { live := some true, title := some "show", viewer_count := some 1200,
        actualStartTime := some "2024", scheduledStartTime := none,
        language := none, thumbnail := none, live_chat_id := none,
        vid := some "v1" } }

/-- The unified record the aggregator produces from `ytSubW`. -/
def ytStreamW : FollowedStreamer :=
  { id := "ytchan", login := "@yt", display_name := "YT", type := "",
    broadcaster_type := "", description := "", profile_image_url := "",
    offline_image_url := "", view_count := 1200, created_at := "",
    user_id := "ytchan", user_login := "@yt", user_name := "YT",
    game_id := "", game_name := "Youtube Content", title := "show",
    viewer_count := 1200, started_at := "2024", language := "",
    thumbnail_url := "", tag_ids := [], tags := [], is_mature := false,
    livechat_id := none, video_id := some "v1", platform := "youtube" }

/-- A cache-miss request with one Twitch stream and one YouTube stream. -/
def c3EnvW : FollowingEnv :=
  { user_id := "u1", cacheGet := .ok none, hasTwitchSession := true,
    hasYoutubeSession := true,
    twitch := ⟨.ok (⟨some "at", false⟩, ⟨some "uid", false⟩), .ok [twStreamW]⟩,
    youtube := ⟨.ok (), .ok [ytSubW]⟩ }

theorem c3EnvW_run :
    get_followed_streams c3EnvW = .ok ⟨[ytStreamW, twStreamW], false,
      [⟨"unified:following:u1", [ytStreamW, twStreamW], CACHE_EXPIRY_SECONDS⟩]⟩ := by
  have h1 : twitchPart c3EnvW ++ youtubePart c3EnvW = [twStreamW, ytStreamW] := rfl
  calc get_followed_streams c3EnvW
      = .ok ⟨(twitchPart c3EnvW ++ youtubePart c3EnvW).mergeSort viewerDescLE, false,
          [⟨"unified:following:u1",
            (twitchPart c3EnvW ++ youtubePart c3EnvW).mergeSort viewerDescLE,
            CACHE_EXPIRY_SECONDS⟩]⟩ := rfl
    _ = _ := by
        rw [h1, mergeSort_pair_of_gt twStreamW ytStreamW (by decide)]

/-- C3, witness for `c3_sorted_concatenation`: the aggregate of a
500-viewer Twitch stream and a 1200-viewer YouTube stream is a sorted
permutation of the concatenation, YouTube first. -/
theorem c3_sorted_concatenation_witness :
    List.Perm [ytStreamW, twStreamW] ([twStreamW] ++ [ytStreamW]) ∧
    List.Pairwise (fun a b : FollowedStreamer => b.viewer_count ≤ a.viewer_count)
      [ytStreamW, twStreamW] ∧
    (⟨[ytStreamW, twStreamW], false,
      [⟨"unified:following:u1", [ytStreamW, twStreamW], CACHE_EXPIRY_SECONDS⟩]⟩ :
        FollowingResult).streams = [ytStreamW, twStreamW] := by
  have h := c3_sorted_concatenation c3EnvW
    ⟨[ytStreamW, twStreamW], false,
      [⟨"unified:following:u1", [ytStreamW, twStreamW], CACHE_EXPIRY_SECONDS⟩]⟩
    rfl c3EnvW_run
  exact ⟨h.1, h.2.1, h.2.2.2 twStreamW ytStreamW rfl rfl (by decide) (by decide)⟩

/-! ### Claim C7 -/

/-- A cache-miss request with no authenticated platform. -/
def c7EnvW : FollowingEnv :=
  { user_id := "anonymous", cacheGet := .ok none, hasTwitchSession := false,
    hasYoutubeSession := false, twitch := ⟨.error (), .error ()⟩,
    youtube := ⟨.error (), .error ()⟩ }

theorem c7EnvW_run :
    get_followed_streams c7EnvW = .ok ⟨[], false,
      [⟨"unified:following:anonymous", [], 120⟩]⟩ := by
  have h1 : twitchPart c7EnvW ++ youtubePart c7EnvW = [] := rfl
  calc get_followed_streams c7EnvW
      = .ok ⟨(twitchPart c7EnvW ++ youtubePart c7EnvW).mergeSort viewerDescLE, false,
          [⟨"unified:following:anonymous",
            (twitchPart c7EnvW ++ youtubePart c7EnvW).mergeSort viewerDescLE,
            CACHE_EXPIRY_SECONDS⟩]⟩ := rfl
    _ = _ := by
        rw [h1, List.mergeSort_nil]
        rfl

/-- C7, counterexample.  The claim says the cache-miss path writes each
platform's streams with a platform-specific TTL of 60 s (Twitch) and 300 s
(YouTube).  The source writes exactly one combined entry under the unified
per-user key with `CACHE_EXPIRY_SECONDS = 120`; no write carries TTL 60 or
300. -/
theorem c7_single_write_ttl_120 :
    get_followed_streams c7EnvW = .ok ⟨[], false,
      [⟨"unified:following:anonymous", [], 120⟩]⟩ ∧
    ([(⟨"unified:following:anonymous", [], 120⟩ : CacheWrite)].all
      (fun w => w.ttl != 60 && w.ttl != 300)) = true := by
  exact ⟨c7EnvW_run, by decide⟩

/-- C7, amended.  On every cache-miss path the handler issues exactly one
cache write: the combined sorted result, under the unified per-user key
`unified:following:{user_id}`, with the single TTL
`CACHE_EXPIRY_SECONDS = 120` — not per-platform entries with TTLs 60/300. -/
theorem c7_unified_cache_write (env : FollowingEnv) (res : FollowingResult)
    (hmiss : env.cacheGet = .ok none ∨ env.cacheGet = .ok (some []))
    (hrun : get_followed_streams env = .ok res) :
    res.writes = [⟨"unified:following:" ++ env.user_id, res.streams, 120⟩] := by
  rcases hmiss with hmiss | hmiss <;>
  · simp only [get_followed_streams, hmiss] at hrun
    cases hrun
    rfl

/-- C7, witness for `c7_unified_cache_write`. -/
theorem c7_unified_cache_write_witness :
    (⟨[], false, [⟨"unified:following:anonymous", [], 120⟩]⟩ :
      FollowingResult).writes =
    [⟨"unified:following:anonymous", ([] : List FollowedStreamer), 120⟩] := by
  exact c7_unified_cache_write c7EnvW
    ⟨[], false, [⟨"unified:following:anonymous", [], 120⟩]⟩
    (Or.inl rfl) c7EnvW_run

/-! ### Claim C10 -/

/-- C10.  When the per-user cache key holds the empty list, the truthiness
check on the cached value fails: the handler does not serve the cached
value but re-fetches from the platforms, sorts, and writes the result back
— an empty aggregate is never served from the cache. -/
theorem c10_empty_cache_is_miss (env : FollowingEnv) (res : FollowingResult)
    (hempty : env.cacheGet = .ok (some []))
    (hrun : get_followed_streams env = .ok res) :
    res.fromCache = false ∧
    res.streams = (twitchPart env ++ youtubePart env).mergeSort viewerDescLE ∧
    res.writes = [⟨"unified:following:" ++ env.user_id, res.streams,
      CACHE_EXPIRY_SECONDS⟩] := by
  simp only [get_followed_streams, hempty] at hrun
  cases hrun
  exact ⟨rfl, rfl, rfl⟩

/-- A request whose cache currently holds the empty list. -/
def c10EnvW : FollowingEnv :=
  { user_id := "u2", cacheGet := .ok (some []), hasTwitchSession := false,
    hasYoutubeSession := false, twitch := ⟨.error (), .error ()⟩,
    youtube := ⟨.error (), .error ()⟩ }

/-- C10, witness for `c10_empty_cache_is_miss`. -/
theorem c10_empty_cache_is_miss_witness :
    (⟨[], false, [⟨"unified:following:u2", [], CACHE_EXPIRY_SECONDS⟩]⟩ :
      FollowingResult).fromCache = false := by
  have hrun : get_followed_streams c10EnvW = .ok
      ⟨[], false, [⟨"unified:following:u2", [], CACHE_EXPIRY_SECONDS⟩]⟩ := by
    have h1 : twitchPart c10EnvW ++ youtubePart c10EnvW = [] := rfl
    calc get_followed_streams c10EnvW
        = .ok ⟨(twitchPart c10EnvW ++ youtubePart c10EnvW).mergeSort viewerDescLE, false,
            [⟨"unified:following:u2",
              (twitchPart c10EnvW ++ youtubePart c10EnvW).mergeSort viewerDescLE,
              CACHE_EXPIRY_SECONDS⟩]⟩ := rfl
      _ = _ := by rw [h1, List.mergeSort_nil]
  exact (c10_empty_cache_is_miss c10EnvW _ rfl hrun).1

/-! ### Search aggregator: `app/services/shared/search.py` and
`app/services/shared/standardize_search.py` -/

/-- A Twitch user dict returned by `search_twitch` (a non-empty Helix user
object), restricted to the keys `standardize_twitch_search_result` reads. -/
structure TwitchSearchRaw where
  id : Option String
  login : Option String
  display_name : Option String
  profile_image_url : Option String
  broadcaster_type : Option String
deriving Repr, DecidableEq

/-- The `stream` sub-dict of a Kick channel search result (`none` models
both an absent and a falsy `stream` value, which the source treats
identically). -/
structure KickStreamInfo where
  is_live : Option Bool
  viewer_count : Option Int
deriving Repr, DecidableEq

/-- A Kick channel dict returned by `search_kick` (the source returns
`first_item if first_item else None`, so a non-`None` result is a
non-empty, truthy dict). -/
structure KickSearchRaw where
  broadcaster_user_id : Option Int
  slug : Option String
  user_name : Option String
  profile_image_url : Option String
  stream : Option KickStreamInfo
deriving Repr, DecidableEq

/-- One thumbnail entry of a YouTube channel snippet in search results. -/
structure YtSearchThumb where
  url : Option String
deriving Repr, DecidableEq

/-- The `snippet.thumbnails` dict of a YouTube channel search result. -/
structure YtSearchThumbs where
  high : Option YtSearchThumb
  medium : Option YtSearchThumb
  defaultThumb : Option YtSearchThumb
deriving Repr, DecidableEq

/-- The `snippet` of a YouTube channel search result. -/
structure YtSearchSnippet where
  customUrl : Option String
  title : Option String
  thumbnails : Option YtSearchThumbs
deriving Repr, DecidableEq, Inhabited

/-- A YouTube channel item; `search_youtube` returns `items or None`, so a
non-`None` result is a non-empty list of these. -/
structure YtSearchChannel where
  id : Option String
  snippet : Option YtSearchSnippet
deriving Repr, DecidableEq

/-- The `StreamerSearchResult` pydantic schema
(app/schemas/search_result.py), as read from standardize_search.py. -/
structure StreamerSearchResult where
  platform : String
  id : String
  username : String
  display_name : String
  profile_image_url : Option String
  broadcaster_type : Option String
  is_live : Option Bool
  live_viewer_count : Option Int
deriving Repr, DecidableEq

/-- Embedding of `standardize_twitch_search_result`
(standardize_search.py lines 8-32); a falsy input yields `None`. -/
def standardize_twitch_search_result (d : Option TwitchSearchRaw) :
    Option StreamerSearchResult :=
  match d with
  | none => none
  | some t => some
    { platform := "twitch"
      id := t.id.getD ""
      username := t.login.getD ""
      display_name := t.display_name.getD ""
      profile_image_url := t.profile_image_url
      broadcaster_type := t.broadcaster_type
      is_live := none
      live_viewer_count := none }

/-- Embedding of `standardize_kick_search_result`
(standardize_search.py lines 35-64). -/
def standardize_kick_search_result (d : Option KickSearchRaw) :
    Option StreamerSearchResult :=
  match d with
  | none => none
  | some k =>
    let is_live := match k.stream with
                   | some st => st.is_live.getD false
                   | none => false
    let lvc : Option Int := match k.stream with
                            | some st => some (st.viewer_count.getD 0)
                            | none => none
    some
      { platform := "kick"
        id := match k.broadcaster_user_id with
              | some n => toString n
              | none => ""
        username := k.slug.getD ""
        display_name := k.user_name.getD ""
        profile_image_url := k.profile_image_url
        broadcaster_type := none
        is_live := some is_live
        live_viewer_count := lvc }

/-- Model of the source's `snippet.get("customUrl", "").replace("@", "")`:
removal of every occurrence of the one-character pattern `"@"`. -/
def removeAtSigns (s : String) : String :=
  String.mk (s.toList.filter (fun c => c != '@'))

/-- The thumbnail loop of `standardize_youtube_search_result`: the first
quality among high/medium/default that is present AND carries a `url` wins
(a present entry without `url` is skipped, unlike the live-checker's
loop). -/
def pickSearchThumbnail : List (Option YtSearchThumb) → Option String
  | [] => none
  | some ⟨some u⟩ :: _ => some u
  | _ :: rest => pickSearchThumbnail rest

/-- Embedding of `standardize_youtube_search_result`
(standardize_search.py lines 67-109) on the list-shaped value produced by
`search_youtube`; a falsy input (None or empty list) yields `None`. -/
def standardize_youtube_search_result (d : Option (List YtSearchChannel)) :
    Option StreamerSearchResult :=
  match d with
  | none => none
  | some [] => none
  | some (yt_item :: _) =>
    let snippet := yt_item.snippet.getD default
    let profile_image_url :=
      match snippet.thumbnails with
      | none => none
      | some th => pickSearchThumbnail [th.high, th.medium, th.defaultThumb]
    some
      { platform := "youtube"
        id := yt_item.id.getD ""
        username := removeAtSigns (snippet.customUrl.getD "")
        display_name := snippet.title.getD ""
        profile_image_url := profile_image_url
        broadcaster_type := none
        is_live := none
        live_viewer_count := none }

/-- The per-platform values of the `data` dict assembled by
`search_all_platforms` (each `None` or a truthy raw result). -/
structure SearchData where
  twitch : Option TwitchSearchRaw
  kick : Option KickSearchRaw
  youtube : Option (List YtSearchChannel)
deriving Repr, DecidableEq

/-- The response dict of `search_all_platforms`. -/
structure SearchResults where
  twitch : Option StreamerSearchResult
  kick : Option StreamerSearchResult
  youtube : Option StreamerSearchResult
deriving Repr, DecidableEq

/-- Embedding of `standardize_search_results`
(standardize_search.py lines 112-147) on the dict built by
`search_all_platforms`: each platform's value is standardized when truthy
and set to `None` otherwise (for YouTube a present empty list is falsy). -/
def standardize_search_results (data : SearchData) : SearchResults :=
  { twitch := match data.twitch with
              | some t => standardize_twitch_search_result (some t)
              | none => none
    kick := match data.kick with
            | some k => standardize_kick_search_result (some k)
            | none => none
    youtube := match data.youtube with
               | some [] => none
               | some (x :: xs) => standardize_youtube_search_result (some (x :: xs))
               | none => none }

/-- Environment of one `search_all_platforms` call: the cached value under
`search:all:{username}` if any, whether the three credential lookups
succeed, and the outcomes of the three platform search calls. -/
structure SearchEnv where
  cached : Option SearchData
  twitchCredsOk : Bool
  kickCredsOk : Bool
  youtubeKeyOk : Bool
  twitchRes : Except Unit (Option TwitchSearchRaw)
  kickRes : Except Unit (Option KickSearchRaw)
  ytRes : Except Unit (Option (List YtSearchChannel))

/-- The `wrap` helper of `search_all_platforms` (search.py lines 112-117):
any exception is caught, logged, and turned into `None`. -/
def wrapSearch (r : Except Unit (Option α)) : Option α :=
  match r with
  | .ok v => v
  | .error _ => none

/-- Embedding of `search_all_platforms` (search.py lines 100-131): serve
the cache when the cached value is not `None`; otherwise require the three
credentials (`ensure_session_credentials` raises `HTTPException` when one
is missing), run the three searches with failures isolated to `None`,
cache, and standardize.  The discarded `set_cache` boolean is not
recorded. -/
def search_all_platforms (env : SearchEnv) : Except Unit SearchResults :=
  match env.cached with
  | some c => .ok (standardize_search_results c)
  | none =>
    if !env.twitchCredsOk then .error ()
    else if !env.kickCredsOk then .error ()
    else if !env.youtubeKeyOk then .error ()
    else
      .ok (standardize_search_results
        { twitch := wrapSearch env.twitchRes
          kick := wrapSearch env.kickRes
          youtube := wrapSearch env.ytRes })

/-! ### Claim C5 -/

/-- C5.  On a cache miss with all credentials available, if exactly one of
the three platform searches raises while the other two return (truthy)
results, `search_all_platforms` returns a dict in which the failing
platform's key is `None` and the other two keys hold their standardized
results (which are non-`None`); no platform's failure prevents the others
from being returned. -/
theorem c5_search_failure_isolated (env : SearchEnv)
    (hmiss : env.cached = none)
    (htc : env.twitchCredsOk = true) (hkc : env.kickCredsOk = true)
    (hyc : env.youtubeKeyOk = true) :
    (∀ k ys, env.twitchRes = .error () → env.kickRes = .ok (some k) →
      env.ytRes = .ok (some ys) → ys ≠ [] →
      search_all_platforms env = .ok
        { twitch := none
          kick := standardize_kick_search_result (some k)
          youtube := standardize_youtube_search_result (some ys) } ∧
      (standardize_kick_search_result (some k)).isSome = true ∧
      (standardize_youtube_search_result (some ys)).isSome = true) ∧
    (∀ t ys, env.kickRes = .error () → env.twitchRes = .ok (some t) →
      env.ytRes = .ok (some ys) → ys ≠ [] →
      search_all_platforms env = .ok
        { twitch := standardize_twitch_search_result (some t)
          kick := none
          youtube := standardize_youtube_search_result (some ys) } ∧
      (standardize_twitch_search_result (some t)).isSome = true ∧
      (standardize_youtube_search_result (some ys)).isSome = true) ∧
    (∀ t k, env.ytRes = .error () → env.twitchRes = .ok (some t) →
      env.kickRes = .ok (some k) →
      search_all_platforms env = .ok
        { twitch := standardize_twitch_search_result (some t)
          kick := standardize_kick_search_result (some k)
          youtube := none } ∧
      (standardize_twitch_search_result (some t)).isSome = true ∧
      (standardize_kick_search_result (some k)).isSome = true) := by
  refine ⟨?_, ?_, ?_⟩
  · intro k ys htw hk hy hys
    cases ys with
    | nil => exact absurd rfl hys
    | cons x xs =>
      refine ⟨?_, rfl, rfl⟩
      simp [search_all_platforms, hmiss, htc, hkc, hyc, htw, hk, hy, wrapSearch,
        standardize_search_results]
  · intro t ys hk htw hy hys
    cases ys with
    | nil => exact absurd rfl hys
    | cons x xs =>
      refine ⟨?_, rfl, rfl⟩
      simp [search_all_platforms, hmiss, htc, hkc, hyc, htw, hk, hy, wrapSearch,
        standardize_search_results]
  · intro t k hy htw hk
    refine ⟨?_, rfl, rfl⟩
    simp [search_all_platforms, hmiss, htc, hkc, hyc, htw, hk, hy, wrapSearch,
      standardize_search_results]

/-- A search where Twitch raises and Kick and YouTube answer. -/
def c5EnvW : SearchEnv :=
  { cached := none, twitchCredsOk := true, kickCredsOk := true,
    youtubeKeyOk := true,
    twitchRes := .error ()
    kickRes := .ok (some
      { broadcaster_user_id := some 7, slug := some "kicker",
        user_name := some "Kicker", profile_image_url := some "https://k",
        stream := some { is_live := some true, viewer_count := some 33 } })
    ytRes := .ok (some
      [{ id := some "UC9", snippet := some
          { customUrl := some "@yt", title := some "YT",
            thumbnails := none } }]) }

/-- C5, witness for `c5_search_failure_isolated`: with Twitch raising, the
result carries `twitch = None` and the standardized Kick and YouTube
results. -/
theorem c5_search_failure_isolated_witness :
    search_all_platforms c5EnvW = .ok
      { twitch := none
        kick := some
          { platform := "kick", id := "7", username := "kicker",
            display_name := "Kicker", profile_image_url := some "https://k",
            broadcaster_type := none, is_live := some true,
            live_viewer_count := some 33 }
        youtube := some
          { platform := "youtube", id := "UC9", username := "yt",
            display_name := "YT", profile_image_url := none,
            broadcaster_type := none, is_live := none,
            live_viewer_count := none } } := by
  have h := (c5_search_failure_isolated c5EnvW rfl rfl rfl rfl).1
    { broadcaster_user_id := some 7, slug := some "kicker",
      user_name := some "Kicker", profile_image_url := some "https://k",
      stream := some { is_live := some true, viewer_count := some 33 } }
    [{ id := some "UC9", snippet := some
        { customUrl := some "@yt", title := some "YT", thumbnails := none } }]
    rfl rfl rfl (by simp)
  rw [h.1]
  rfl
